import Mathlib

set_option maxHeartbeats 1000000

/-! Verification development for the Genesis serial bridge
(`tools/genesis-bridge.py`).  The Python script is embedded shallowly:
pure string manipulation is translated to executable Lean functions on
`String`/`List Char`; the stateful serial listener, the Telegram rate
limiter, the long-poll offset tracking, the mailbox poller and the
agentic tool loop become explicit state-passing functions; effectful
calls (network, subprocess, filesystem) are abstracted as oracle
parameters or recorded as events. -/

namespace GenesisBridge

/-! ## String helpers mirroring the Python string/regex operations -/

/-- Python regex class `\s` restricted to ASCII: space, tab, newline,
carriage return, vertical tab (11), form feed (12). -/
def pyWs (c : Char) : Bool :=
  c == ' ' || c == '\t' || c == '\n' || c == '\r' || c == Char.ofNat 11 || c == Char.ofNat 12

/-- Substring containment on character lists: `containsL needle hay`
is true iff `needle` occurs contiguously in `hay` (Python `needle in hay`). -/
def containsL (needle : List Char) : List Char → Bool
  | [] => needle.isEmpty
  | h :: t => List.isPrefixOf needle (h :: t) || containsL needle t

/-- Python substring test `needle in hay`. -/
def pyContains (hay needle : String) : Bool :=
  containsL needle.toList hay.toList

/-- Characters after the last occurrence of `needle`, or `none` when
`needle` does not occur.  Later positions are preferred, so this matches
the greedy regex `.*needle` used by the bridge's `re.sub` calls. -/
def afterLast (needle : List Char) : List Char → Option (List Char)
  | [] => if needle.isEmpty then some [] else none
  | h :: t =>
      match afterLast needle t with
      | some r => some r
      | none =>
          if List.isPrefixOf needle (h :: t) then some ((h :: t).drop needle.length)
          else none

/-- Characters after the first occurrence of `needle`, or `none` when
`needle` does not occur (leftmost match, as in `re.search`). -/
def afterFirst (needle : List Char) : List Char → Option (List Char)
  | [] => if needle.isEmpty then some [] else none
  | h :: t =>
      if List.isPrefixOf needle (h :: t) then some ((h :: t).drop needle.length)
      else afterFirst needle t

/-- Embedding of `re.sub(r'.*TAG\s*', '', line)`: everything up to and
including the last occurrence of `tag` and any following whitespace is
removed; if `tag` does not occur the line is returned unchanged
(`re.sub` with no match). -/
def tagPayload (tag line : String) : String :=
  match afterLast tag.toList line.toList with
  | some rest => String.mk (rest.dropWhile pyWs)
  | none => line

/-- Python `str.strip()` restricted to the `pyWs` whitespace class. -/
def pyStrip (s : String) : String :=
  String.mk (((s.toList.dropWhile pyWs).reverse.dropWhile pyWs).reverse)

/-- Python slicing `s[:n]` (by characters). -/
def takeChars (n : Nat) (s : String) : String :=
  String.mk (s.toList.take n)

/-- A single-quote character, used to build Python f-string literals that
quote names. -/
def apos : String := String.mk [Char.ofNat 39]

/-- Wrap a string in single quotes, as the bridge's f-strings do. -/
def sq (s : String) : String := apos ++ s ++ apos

/-! ## Serial listener: tag router and multi-line accumulators

Embeds the line-dispatch section of `listen_to_genesis`
(`tools/genesis-bridge.py`, lines 1140-1227).  A `ListenerState` carries
the two accumulator buffers (`_memory_persist_buffer`, `_journal_buffer`)
together with event logs recording every handler invocation the listener
makes: `memFlushes` logs calls to `_save_memory_to_disk`,
`journalFlushes` logs calls to `_save_journal_entries`, `notifySends`
logs calls to `send_telegram`, `replySends` logs calls to
`send_telegram_reply`, `queueItems` logs `input_queue.put` calls, and
the two request counters log the replay threads spawned for
`[MEMORY_REQUEST]` / `[AMBITION_REQUEST]`.  The rolling state summary
update (`update_genesis_state`) touches disjoint state and is not
modeled here. -/

/-- An item placed on the bridge's dispatch queue by `input_queue.put`. -/
structure QueueItem where
  type : String
  agent : String := ""
  context : String := ""
  videoPath : String := ""
deriving DecidableEq

/-- State of the serial listener: accumulator buffers plus logs of the
handler invocations performed so far. -/
structure ListenerState where
  memBuffer : List String := []
  journalBuffer : List String := []
  memFlushes : List (List String) := []
  journalFlushes : List (List String) := []
  memReplayRequests : Nat := 0
  ambitionSaves : List String := []
  ambitionReplayRequests : Nat := 0
  notifySends : List String := []
  replySends : List String := []
  queueItems : List QueueItem := []
deriving DecidableEq

/-- Group 1 of the router: the single `if/elif` chain handling
`[MEMORY_PERSIST]`, `[MEMORY_DONE]`, `[MEMORY_REQUEST]`, `[JOURNAL]`,
`[JOURNAL_DONE]`, `[AMBITION_SET]`, `[AMBITION_REQUEST]` and `[NOTIFY]`
(lines 1144-1197).  Because the chain uses `elif`, at most one branch of
this group fires per line. -/
def routeMemoryJournal (st : ListenerState) (line : String) : ListenerState :=
  if pyContains line "[MEMORY_PERSIST]" then
    if tagPayload "[MEMORY_PERSIST]" line ≠ "" then
      { st with memBuffer := st.memBuffer ++ [tagPayload "[MEMORY_PERSIST]" line] }
    else st
  else if pyContains line "[MEMORY_DONE]" then
    if st.memBuffer ≠ [] then
      { st with memFlushes := st.memFlushes ++ [st.memBuffer], memBuffer := [] }
    else st
  else if pyContains line "[MEMORY_REQUEST]" then
    { st with memReplayRequests := st.memReplayRequests + 1 }
  else if pyContains line "[JOURNAL]" && !pyContains line "[JOURNAL_DONE]"
          && !pyContains line "[JOURNAL_START]" then
    if tagPayload "[JOURNAL]" line ≠ "" then
      { st with journalBuffer := st.journalBuffer ++ [tagPayload "[JOURNAL]" line] }
    else st
  else if pyContains line "[JOURNAL_DONE]" then
    if st.journalBuffer ≠ [] then
      { st with journalFlushes := st.journalFlushes ++ [st.journalBuffer], journalBuffer := [] }
    else st
  else if pyContains line "[AMBITION_SET]" then
    if tagPayload "[AMBITION_SET]" line ≠ "" then
      { st with ambitionSaves := st.ambitionSaves ++ [tagPayload "[AMBITION_SET]" line] }
    else st
  else if pyContains line "[AMBITION_REQUEST]" then
    { st with ambitionReplayRequests := st.ambitionReplayRequests + 1 }
  else if pyContains line "[NOTIFY]" then
    if tagPayload "[NOTIFY]" line ≠ "" then
      { st with notifySends := st.notifySends ++ ["🤖 *Genesis*\n" ++ tagPayload "[NOTIFY]" line] }
    else st
  else st

/-- Group 2 of the router: the independent `[TELEGRAM_REPLY]` check
(lines 1200-1203), active only when the Anthropic integration is not
configured. -/
def routeTelegramReply (anthropicAvailable : Bool) (st : ListenerState) (line : String) :
    ListenerState :=
  if pyContains line "[TELEGRAM_REPLY]" && !anthropicAvailable then
    if tagPayload "[TELEGRAM_REPLY]" line ≠ "" then
      { st with replySends := st.replySends ++ ["💬 " ++ tagPayload "[TELEGRAM_REPLY]" line] }
    else st
  else st

/-- The exact `[SHELL]` trigger line (contains an apostrophe, built via
`apos`). -/
def shellPromptLine : String := "[SHELL] Thomas" ++ apos ++ "s full prompt sent to bridge."

/-- Marker checked by `in` for Scout video requests. -/
def scoutMarker : String := "[SCOUT] Video analysis requested:"

/-- Group 3 of the router: the legacy bridge-command `if/elif` chain
(lines 1206-1227).  The Scout branch embeds
`re.search(r'\[SCOUT\] Video analysis requested: (.+)', line)`: the
leftmost occurrence of the marker followed by at least one character
matches, the capture runs to the end of the line, and the captured path
is stripped.  `(afterFirst ...).getD [] ≠ []` is equivalent to the
regex matching: the remainder after the first occurrence of the
spaced marker is empty only when that occurrence ends the line, in which
case no later occurrence can match either. -/
def routeBridgeCommands (st : ListenerState) (line : String) : ListenerState :=
  if pyContains line "[LLM_REQUEST] TypeWrite haiku request" then
    { st with queueItems := st.queueItems ++ [⟨"haiku_request", "TypeWrite", "", ""⟩] }
  else if pyContains line shellPromptLine then
    { st with queueItems :=
        st.queueItems ++ [⟨"llm_request", "Thomas", "System test result summary", ""⟩] }
  else if pyContains line "Trigger morning ambitions" then
    { st with queueItems := st.queueItems ++ [⟨"ambition_trigger", "", "", ""⟩] }
  else if pyContains line scoutMarker
          && ((afterFirst (scoutMarker ++ " ").toList line.toList).getD []) ≠ [] then
    { st with queueItems := st.queueItems ++
        [⟨"video_analysis", "", "",
          pyStrip (String.mk ((afterFirst (scoutMarker ++ " ").toList line.toList).getD []))⟩] }
  else st

/-- Full dispatch for one complete, stripped, non-empty serial line: the
three groups run in sequence on every line (groups 2 and 3 are separate
`if` statements in the source, not part of group 1's `elif` chain). -/
def processLine (anthropicAvailable : Bool) (st : ListenerState) (line : String) :
    ListenerState :=
  routeBridgeCommands (routeTelegramReply anthropicAvailable (routeMemoryJournal st line) line)
    line

/-! ## Telegram rate limiter

Embeds `send_telegram` (lines 124-153) and `send_telegram_reply`
(lines 155-171).  `_last_telegram_time` is the only rate-limiter state;
time is modeled as a rational number.  A result of `true` means the
function proceeded to fire the HTTP send (in a background thread);
`false` means it returned without sending. -/

/-- The constant `_TELEGRAM_MIN_INTERVAL = 30.0`. -/
def TELEGRAM_MIN_INTERVAL : ℚ := 30

/-- Embedding of `send_telegram`: returns the new
`_last_telegram_time` together with whether the message was sent.
Ambient notifications are dropped when less than
`TELEGRAM_MIN_INTERVAL` has elapsed since the last delivered send. -/
def sendTelegram (available : Bool) (lastTime now : ℚ) : ℚ × Bool :=
  if !available then (lastTime, false)
  else if now - lastTime < TELEGRAM_MIN_INTERVAL then (lastTime, false)
  else (now, true)

/-- Embedding of `send_telegram_reply`: direct replies never consult or
update `_last_telegram_time`; they are sent whenever Telegram is
configured. -/
def sendTelegramReply (available : Bool) (lastTime : ℚ) : ℚ × Bool :=
  (lastTime, available)

/-- Run a sequence of ambient `send_telegram` attempts (with Telegram
configured) at the given times, starting from rate-limiter state
`lastTime`; returns the times of the attempts that were delivered. -/
def runSends (lastTime : ℚ) : List ℚ → List ℚ
  | [] => []
  | t :: ts =>
      let r := sendTelegram true lastTime t
      if r.2 then t :: runSends r.1 ts else runSends r.1 ts

/-! ## Telegram long-poll offset tracking

Embeds the `update_id` bookkeeping of `poll_telegram`
(lines 208-234): `last_update_id` starts at 0, every poll requests
`offset = last_update_id + 1`, and the body `for update in
data["result"]: last_update_id = update["update_id"]` overwrites the
tracker with each update's identifier in order (before any chat
filtering).  Message routing is modeled separately by `callClaude`. -/

/-- A Telegram update, reduced to the field the offset tracker reads. -/
structure TgUpdate where
  update_id : Int
deriving DecidableEq

/-- Offset sent in the next `getUpdates` request. -/
def nextPollOffset (lastUpdateId : Int) : Int := lastUpdateId + 1

/-- New `last_update_id` after processing one poll batch. -/
def processUpdates (lastUpdateId : Int) (updates : List TgUpdate) : Int :=
  updates.foldl (fun _ u => u.update_id) lastUpdateId

/-! ## Mailbox poller

Embeds the per-file body of `poll_inbox` (lines 297-363) as a pure
function from the parsed request file to the ordered list of external
effects performed.  `parsed = none` is the malformed-JSON case.  The
`call_claude` network call and the success of the serial injection are
oracle parameters. -/

/-- A parsed mailbox request file `{id, from, to, message}`; absent keys
are `none` (the code reads them with `msg.get(...)` defaults).  The
Python keys `from` and `to` are rendered `sender` and `toTarget`
(both are reserved words in Lean). -/
structure MailboxMsg where
  id : Option String := none
  sender : Option String := none
  toTarget : Option String := none
  message : Option String := none
deriving DecidableEq

/-- The response record written to the outbox
(`{id, in_reply_to, from, message, timestamp}`). -/
structure MailboxResponse where
  id : String
  in_reply_to : String
  sender : String
  message : String
  timestamp : String
deriving DecidableEq

/-- External effects performed while handling one mailbox file, in
program order. -/
inductive InboxEvent
  | callClaudeEv (prompt : String)
  | injectSerial (line : String)
  | sendReplyEv (text : String)
  | writeResponse (fileName : String) (resp : MailboxResponse)
  | deleteRequest
deriving DecidableEq

/-- Embedding of the `poll_inbox` body for a single inbox file.
`claude` is the `call_claude` oracle (`none` = the call returned
`None`); `injectErr = some e` means `process.stdin.write` raised with
message `e`; `fileStem` is `f.stem`, the `id` default. -/
def processInboxFile (anthropicAvailable : Bool) (claude : String → Option String)
    (injectErr : Option String) (timestamp : String) (fileStem : String)
    (parsed : Option MailboxMsg) : List InboxEvent :=
  match parsed with
  | none => [.deleteRequest]
  | some m =>
      let msgId := m.id.getD fileStem
      let target := m.toTarget.getD "claude"
      let text := m.message.getD ""
      let pre : List InboxEvent × Option String :=
        if target == "claude" && anthropicAvailable then
          let prompt := "[From Claude Code terminal] " ++ text
          ([.callClaudeEv prompt], claude prompt)
        else if target == "genesis" then
          match injectErr with
          | none => ([.injectSerial ("[INBOX] " ++ text ++ "\n")],
                     some ("Injected into Genesis serial: " ++ takeChars 100 text))
          | some e => ([], some ("Error injecting to Genesis: " ++ e))
        else if target == "telegram" then
          ([.sendReplyEv text], some ("Sent to Telegram: " ++ takeChars 100 text))
        else
          ([], some ("Unknown target " ++ sq target ++ ". Use " ++ sq "claude" ++ ", "
                     ++ sq "genesis" ++ ", or " ++ sq "telegram" ++ "."))
      let respMessage :=
        match pre.2 with
        | some r => if r == "" then "(no response)" else r
        | none => "(no response)"
      let resp : MailboxResponse := ⟨msgId, msgId, target, respMessage, timestamp⟩
      let forward : List InboxEvent :=
        if target == "claude" && (match pre.2 with | some r => !(r == "") | none => false) then
          [.sendReplyEv ("🖥️ *Claude Code asked:* " ++ takeChars 200 text ++ "\n\n"
                         ++ takeChars 3000 (pre.2.getD ""))]
        else []
      pre.1 ++ [.writeResponse ("resp_" ++ msgId ++ ".json") resp] ++ forward
        ++ [.deleteRequest]

/-! ## Agentic tool loop

Embeds `execute_tool` (lines 619-764), `call_claude` (lines 809-918),
the conversation-history bookkeeping (`_conversation_history`,
`_MAX_HISTORY`, lines 377-379) and `_MAX_TOOL_ITERATIONS` (line 594).
The completion-service HTTP call and the actual tool bodies are I/O and
are abstracted as oracles (`service`, `runTool`); the structural control
flow — the bounded `for` loop, the `stop_reason` dispatch, tool-result
accumulation and history trimming — is modeled exactly.  The cosmetic
per-iteration effects (`_send_telegram_typing`, the first-iteration
"Working on it..." notification, cache-statistics logging) produce no
state read by the loop and are omitted. -/

/-- Serialized tool input (the `tool_input` JSON object). -/
abbrev ToolInput := String

/-- Exceptions escaping a tool body: `subprocess.TimeoutExpired`, or any
other `Exception` rendered by `f"Error: {e}"`. -/
inductive ToolExc
  | timeout
  | exc (msg : String)
deriving DecidableEq

/-- The tool names `execute_tool` dispatches on; any other name falls
through to `return f"Unknown tool: {name}"`. -/
def knownTools : List String :=
  ["fetch_url", "run_python", "run_bash", "read_file", "write_file", "list_files",
   "capture_snapshot", "generate_image", "send_telegram_photo"]

/-- Text produced by the `except` clauses of `execute_tool`. -/
def excMessage : ToolExc → String
  | .timeout => "Error: timed out after 30 seconds"
  | .exc m => "Error: " ++ m

/-- Embedding of `execute_tool`: a known tool's body runs (oracle
`runTool`); the surrounding `try/except` converts an escaping exception
to its textual `excMessage`; an unknown name gets a textual fallback.
The function is total: no exception propagates to the caller. -/
def executeTool (runTool : String → ToolInput → Except ToolExc String)
    (name : String) (input : ToolInput) : String :=
  if name ∈ knownTools then
    match runTool name input with
    | .ok s => s
    | .error e => excMessage e
  else "Unknown tool: " ++ name

/-- A content block of an API response (`data["content"]`); fields not
present in a given block default to `""`. -/
structure Block where
  type : String := ""
  text : String := ""
  name : String := ""
  input : ToolInput := ""
  id : String := ""
deriving DecidableEq

/-- A `tool_result` entry appended to the working messages. -/
structure ToolResult where
  toolUseId : String
  content : String
deriving DecidableEq

/-- Message content: plain text, assistant content blocks, tool results,
or the multimodal image+text content built for an attached image. -/
inductive MsgContent
  | text (s : String)
  | blocks (bs : List Block)
  | toolResults (rs : List ToolResult)
  | multimodal (imageData : String) (mime : String) (txt : String)
deriving DecidableEq

/-- A role-tagged conversation message. -/
structure ChatMsg where
  role : String
  content : MsgContent
deriving DecidableEq

/-- A completion-service response: content blocks plus
`data.get("stop_reason", "end_turn")`. -/
structure ApiResp where
  content : List Block
  stopReason : String
deriving DecidableEq

/-- The constant `_MAX_TOOL_ITERATIONS = 25`. -/
def MAX_TOOL_ITERATIONS : Nat := 25

/-- The constant `_MAX_HISTORY = 20`. -/
def MAX_HISTORY : Nat := 20

/-- The fixed advisory returned when the iteration bound is exhausted. -/
def MAX_ITER_MESSAGE : String := "(Reached max tool iterations. Try a simpler request.)"

/-- Append to `_conversation_history` and trim:
`append` followed by `if len(h) > _MAX_HISTORY: h.pop(0)`. -/
def pushHistory (h : List ChatMsg) (m : ChatMsg) : List ChatMsg :=
  let h2 := h ++ [m]
  if h2.length > MAX_HISTORY then h2.drop 1 else h2

/-- The reply extracted on completion:
`"".join(b["text"] for b in content if b.get("type") == "text")`. -/
def extractReply (content : List Block) : String :=
  String.join ((content.filter (fun b => b.type == "text")).map (fun b => b.text))

/-- Tool results for one response: every `tool_use` block is executed in
order and paired with its block id. -/
def toolResultsFor (runTool : String → ToolInput → Except ToolExc String)
    (content : List Block) : List ToolResult :=
  (content.filter (fun b => b.type == "tool_use")).map
    (fun b => ⟨b.id, executeTool runTool b.name b.input⟩)

/-- The `for iteration in range(...)` loop of `call_claude`, with the
remaining iteration budget as fuel.  Returns the reply text, the number
of completion-service calls made, and the conversation history (the
assistant reply is appended to history, with trimming, only on the
normal-completion path, exactly as in the source; the bound-exhausted
path returns `MAX_ITER_MESSAGE` and leaves history untouched). -/
def agentLoopAux (service : List ChatMsg → ApiResp)
    (runTool : String → ToolInput → Except ToolExc String) :
    Nat → List ChatMsg → List ChatMsg → String × Nat × List ChatMsg
  | 0, _, hist => (MAX_ITER_MESSAGE, 0, hist)
  | n + 1, msgs, hist =>
      let resp := service msgs
      if resp.stopReason ≠ "tool_use" then
        let reply := extractReply resp.content
        let hist2 := if reply ≠ "" then pushHistory hist ⟨"assistant", .text reply⟩ else hist
        (reply, 1, hist2)
      else
        let msgs2 := msgs ++
          [⟨"assistant", .blocks resp.content⟩,
           ⟨"user", .toolResults (toolResultsFor runTool resp.content)⟩]
        let r := agentLoopAux service runTool n msgs2 hist
        (r.1, r.2.1 + 1, r.2.2)

/-- Embedding of `call_claude`: returns the reply (`none` when the
Anthropic integration is unavailable) and the conversation history after
the call.  The state reminder is prefixed to the stored user message;
with an image the text-only `[Sent image]` version goes to history while
the last working message is replaced by multimodal content. -/
def callClaude (available : Bool) (service : List ChatMsg → ApiResp)
    (runTool : String → ToolInput → Except ToolExc String)
    (history : List ChatMsg) (userMessage : String)
    (image : Option (String × String)) (stateReminder : String) :
    Option String × List ChatMsg :=
  if !available then (none, history)
  else
    let historyText := if image.isSome then "[Sent image] " ++ userMessage else userMessage
    let userContent := stateReminder ++ "\n\n" ++ historyText
    let hist1 := pushHistory history ⟨"user", .text userContent⟩
    let working :=
      match image with
      | some (dat, mime) =>
          hist1.dropLast ++
            [⟨"user", .multimodal dat (if mime == "" then "image/jpeg" else mime)
                (stateReminder ++ "\n\n" ++ userMessage)⟩]
      | none => hist1
    let r := agentLoopAux service runTool MAX_TOOL_ITERATIONS working hist1
    (some r.1, r.2.2)

/-! ## Helper lemmas about the listener's three router groups -/

theorem routeTelegramReply_fields (a : Bool) (st : ListenerState) (line : String) :
    (routeTelegramReply a st line).memBuffer = st.memBuffer ∧
    (routeTelegramReply a st line).memFlushes = st.memFlushes ∧
    (routeTelegramReply a st line).notifySends = st.notifySends ∧
    (routeTelegramReply a st line).queueItems = st.queueItems := by
  unfold routeTelegramReply
  split_ifs <;> exact ⟨rfl, rfl, rfl, rfl⟩

theorem routeBridgeCommands_fields (st : ListenerState) (line : String) :
    (routeBridgeCommands st line).memBuffer = st.memBuffer ∧
    (routeBridgeCommands st line).memFlushes = st.memFlushes ∧
    (routeBridgeCommands st line).notifySends = st.notifySends ∧
    (routeBridgeCommands st line).replySends = st.replySends := by
  unfold routeBridgeCommands
  split_ifs <;> exact ⟨rfl, rfl, rfl, rfl⟩

theorem routeMemoryJournal_fields (st : ListenerState) (line : String) :
    (routeMemoryJournal st line).queueItems = st.queueItems ∧
    (routeMemoryJournal st line).replySends = st.replySends := by
  unfold routeMemoryJournal
  split_ifs <;> exact ⟨rfl, rfl⟩

theorem processLine_memBuffer (a : Bool) (st : ListenerState) (line : String) :
    (processLine a st line).memBuffer = (routeMemoryJournal st line).memBuffer := by
  unfold processLine
  rw [(routeBridgeCommands_fields _ _).1, (routeTelegramReply_fields _ _ _).1]

theorem processLine_memFlushes (a : Bool) (st : ListenerState) (line : String) :
    (processLine a st line).memFlushes = (routeMemoryJournal st line).memFlushes := by
  unfold processLine
  rw [(routeBridgeCommands_fields _ _).2.1, (routeTelegramReply_fields _ _ _).2.1]

theorem routeMemoryJournal_item (st : ListenerState) (line : String)
    (h1 : pyContains line "[MEMORY_PERSIST]" = true)
    (h2 : tagPayload "[MEMORY_PERSIST]" line ≠ "") :
    routeMemoryJournal st line =
      { st with memBuffer := st.memBuffer ++ [tagPayload "[MEMORY_PERSIST]" line] } := by
  unfold routeMemoryJournal
  simp [h1, h2]

theorem routeMemoryJournal_done (st : ListenerState) (line : String)
    (h1 : pyContains line "[MEMORY_PERSIST]" = false)
    (h2 : pyContains line "[MEMORY_DONE]" = true) :
    routeMemoryJournal st line =
      if st.memBuffer = [] then st
      else { st with memFlushes := st.memFlushes ++ [st.memBuffer], memBuffer := [] } := by
  unfold routeMemoryJournal
  by_cases hb : st.memBuffer = [] <;> simp [h1, h2, hb]

theorem processLine_mem_item (a : Bool) (st : ListenerState) (line : String)
    (h1 : pyContains line "[MEMORY_PERSIST]" = true)
    (h2 : tagPayload "[MEMORY_PERSIST]" line ≠ "") :
    (processLine a st line).memBuffer
        = st.memBuffer ++ [tagPayload "[MEMORY_PERSIST]" line] ∧
    (processLine a st line).memFlushes = st.memFlushes := by
  rw [processLine_memBuffer, processLine_memFlushes, routeMemoryJournal_item st line h1 h2]
  exact ⟨rfl, rfl⟩

theorem foldl_processLine_items (a : Bool) (lines : List String)
    (h : ∀ l ∈ lines, pyContains l "[MEMORY_PERSIST]" = true ∧
          tagPayload "[MEMORY_PERSIST]" l ≠ "") :
    ∀ st : ListenerState,
      (lines.foldl (processLine a) st).memBuffer
          = st.memBuffer ++ lines.map (tagPayload "[MEMORY_PERSIST]") ∧
      (lines.foldl (processLine a) st).memFlushes = st.memFlushes := by
  induction lines with
  | nil => intro st; simp
  | cons l ls ih =>
      intro st
      obtain ⟨h1, h2⟩ := h l (by simp)
      obtain ⟨hb, hf⟩ := processLine_mem_item a st l h1 h2
      obtain ⟨ihb, ihf⟩ := ih (fun x hx => h x (List.mem_cons_of_mem _ hx)) (processLine a st l)
      constructor
      · rw [List.foldl_cons, ihb, hb, List.map_cons, List.append_assoc]
        rfl
      · rw [List.foldl_cons, ihf, hf]

/-! ## C1: memory-persist accumulate/flush protocol -/

/-- Claim C1, counterexample to the claim as stated: a
`[MEMORY_PERSIST]` item line whose payload is empty (here the bare tag
line) is discarded by the listener, so a sequence consisting of that
item line followed by `[MEMORY_DONE]` invokes the flush handler zero
times, not exactly once. -/
theorem c1_counterexample :
    ((["[MEMORY_PERSIST]", "[MEMORY_DONE]"]).foldl (processLine true) {}).memFlushes
      = [] ∧
    pyContains "[MEMORY_PERSIST]" "[MEMORY_PERSIST]" = true := by
  decide

/-- Claim C1 (amended): for every non-empty sequence of
`[MEMORY_PERSIST]` item lines with non-empty payloads followed by one
`[MEMORY_DONE]` line, processed by the serial listener starting from an
empty accumulator, the flush handler `_save_memory_to_disk` is invoked
exactly once, with the item payloads in arrival order, and the
accumulator buffer is empty immediately after the flush. -/
theorem c1_memory_flush (a : Bool) (st : ListenerState) (lines : List String)
    (doneLine : String)
    (hbuf : st.memBuffer = [])
    (hne : lines ≠ [])
    (hitem : ∀ l ∈ lines, pyContains l "[MEMORY_PERSIST]" = true ∧
        tagPayload "[MEMORY_PERSIST]" l ≠ "")
    (hd1 : pyContains doneLine "[MEMORY_PERSIST]" = false)
    (hd2 : pyContains doneLine "[MEMORY_DONE]" = true) :
    ((lines ++ [doneLine]).foldl (processLine a) st).memFlushes
        = st.memFlushes ++ [lines.map (tagPayload "[MEMORY_PERSIST]")] ∧
    ((lines ++ [doneLine]).foldl (processLine a) st).memBuffer = [] := by
  obtain ⟨hmb, hmf⟩ := foldl_processLine_items a lines hitem st
  rw [List.foldl_append, List.foldl_cons, List.foldl_nil]
  set mid := lines.foldl (processLine a) st with hmid
  have hmbne : mid.memBuffer ≠ [] := by
    rw [hmb, hbuf, List.nil_append]
    simpa using hne
  rw [processLine_memFlushes, processLine_memBuffer, routeMemoryJournal_done mid doneLine hd1 hd2,
    if_neg hmbne]
  constructor
  · show mid.memFlushes ++ [mid.memBuffer] = st.memFlushes ++ _
    rw [hmf, hmb, hbuf, List.nil_append]
  · rfl

/-- Witness for C1 at the spec's own example: `[MEMORY_PERSIST] foo=1`,
`[MEMORY_PERSIST] bar=2`, `[MEMORY_DONE]` flushes `["foo=1", "bar=2"]`
once and leaves the buffer empty. -/
theorem c1_memory_flush_witness :
    (((["[MEMORY_PERSIST] foo=1", "[MEMORY_PERSIST] bar=2"] ++ ["[MEMORY_DONE]"])).foldl
        (processLine true) {}).memFlushes = [["foo=1", "bar=2"]] ∧
    (((["[MEMORY_PERSIST] foo=1", "[MEMORY_PERSIST] bar=2"] ++ ["[MEMORY_DONE]"])).foldl
        (processLine true) {}).memBuffer = [] := by
  have h := c1_memory_flush true {} ["[MEMORY_PERSIST] foo=1", "[MEMORY_PERSIST] bar=2"]
    "[MEMORY_DONE]" rfl (by decide) (by decide) (by decide) (by decide)
  refine ⟨?_, h.2⟩
  rw [h.1]
  decide

/-! ## C8: DONE on an empty buffer is a no-op -/

/-- Claim C8: a `[MEMORY_DONE]` line arriving when the accumulator
buffer is empty produces no flush handler invocation and leaves the
buffer empty. -/
theorem c8_done_empty_noop (a : Bool) (st : ListenerState) (line : String)
    (hbuf : st.memBuffer = [])
    (h1 : pyContains line "[MEMORY_PERSIST]" = false)
    (h2 : pyContains line "[MEMORY_DONE]" = true) :
    (processLine a st line).memFlushes = st.memFlushes ∧
    (processLine a st line).memBuffer = [] := by
  rw [processLine_memFlushes, processLine_memBuffer, routeMemoryJournal_done st line h1 h2,
    if_pos hbuf]
  exact ⟨rfl, hbuf⟩

/-- Witness for C8: a lone `[MEMORY_DONE]` on a fresh listener state
flushes nothing. -/
theorem c8_done_empty_noop_witness :
    (processLine true {} "[MEMORY_DONE]").memFlushes = [] ∧
    (processLine true {} "[MEMORY_DONE]").memBuffer = [] :=
  c8_done_empty_noop true {} "[MEMORY_DONE]" rfl (by decide) (by decide)

/-! ## C5: independence of tag checks across router groups -/

theorem routeMemoryJournal_notify (st : ListenerState) (line : String)
    (h1 : pyContains line "[MEMORY_PERSIST]" = false)
    (h2 : pyContains line "[MEMORY_DONE]" = false)
    (h3 : pyContains line "[MEMORY_REQUEST]" = false)
    (h4 : pyContains line "[JOURNAL]" = false)
    (h5 : pyContains line "[JOURNAL_DONE]" = false)
    (h6 : pyContains line "[AMBITION_SET]" = false)
    (h7 : pyContains line "[AMBITION_REQUEST]" = false)
    (h8 : pyContains line "[NOTIFY]" = true)
    (h9 : tagPayload "[NOTIFY]" line ≠ "") :
    routeMemoryJournal st line =
      { st with notifySends :=
          st.notifySends ++ ["🤖 *Genesis*\n" ++ tagPayload "[NOTIFY]" line] } := by
  unfold routeMemoryJournal
  simp [h1, h2, h3, h4, h5, h6, h7, h8, h9]

theorem routeBridgeCommands_trigger (st : ListenerState) (line : String)
    (h10 : pyContains line "[LLM_REQUEST] TypeWrite haiku request" = false)
    (h11 : pyContains line shellPromptLine = false)
    (h12 : pyContains line "Trigger morning ambitions" = true) :
    routeBridgeCommands st line =
      { st with queueItems := st.queueItems ++ [⟨"ambition_trigger", "", "", ""⟩] } := by
  unfold routeBridgeCommands
  simp [h10, h11, h12]

/-- Claim C5, counterexample to the claim as stated: the first router
group is an `if/elif` chain, so its tag predicates are mutually
exclusive, not independent.  The line `[MEMORY_PERSIST] [NOTIFY] ping`
contains the notification tag, and that tag fires on a line of its own,
yet on this line no notification is sent (the memory-item branch wins). -/
theorem c5_counterexample :
    pyContains "[MEMORY_PERSIST] [NOTIFY] ping" "[NOTIFY]" = true ∧
    (processLine true {} "[MEMORY_PERSIST] [NOTIFY] ping").notifySends = [] ∧
    (processLine true {} "[NOTIFY] ping").notifySends = ["🤖 *Genesis*\nping"] := by
  decide

/-- Claim C5 (amended): the router's three groups — the
accumulator/state `if/elif` chain, the `[TELEGRAM_REPLY]` check, and the
legacy-command `if/elif` chain — are evaluated independently on every
line, so one line can trigger more than one tag family across groups;
in particular a `[NOTIFY]` notification tag and the legacy
`Trigger morning ambitions` command tag on the same line both fire.
Within each group, however, branches are mutually exclusive. -/
theorem c5_notify_and_command (a : Bool) (st : ListenerState) (line : String)
    (h1 : pyContains line "[MEMORY_PERSIST]" = false)
    (h2 : pyContains line "[MEMORY_DONE]" = false)
    (h3 : pyContains line "[MEMORY_REQUEST]" = false)
    (h4 : pyContains line "[JOURNAL]" = false)
    (h5 : pyContains line "[JOURNAL_DONE]" = false)
    (h6 : pyContains line "[AMBITION_SET]" = false)
    (h7 : pyContains line "[AMBITION_REQUEST]" = false)
    (h8 : pyContains line "[NOTIFY]" = true)
    (h9 : tagPayload "[NOTIFY]" line ≠ "")
    (h10 : pyContains line "[LLM_REQUEST] TypeWrite haiku request" = false)
    (h11 : pyContains line shellPromptLine = false)
    (h12 : pyContains line "Trigger morning ambitions" = true) :
    (processLine a st line).notifySends
        = st.notifySends ++ ["🤖 *Genesis*\n" ++ tagPayload "[NOTIFY]" line] ∧
    (processLine a st line).queueItems
        = st.queueItems ++ [⟨"ambition_trigger", "", "", ""⟩] := by
  unfold processLine
  rw [routeMemoryJournal_notify st line h1 h2 h3 h4 h5 h6 h7 h8 h9]
  rw [routeBridgeCommands_trigger _ line h10 h11 h12]
  constructor
  · show (routeTelegramReply a _ line).notifySends = _
    rw [(routeTelegramReply_fields a _ line).2.2.1]
  · show (routeTelegramReply a _ line).queueItems ++ _ = _
    rw [(routeTelegramReply_fields a _ line).2.2.2]

/-- Witness for C5: `[NOTIFY] Trigger morning ambitions` both sends a
notification and enqueues the ambition-trigger command. -/
theorem c5_notify_and_command_witness :
    (processLine true {} "[NOTIFY] Trigger morning ambitions").notifySends
        = ["🤖 *Genesis*\nTrigger morning ambitions"] ∧
    (processLine true {} "[NOTIFY] Trigger morning ambitions").queueItems
        = [⟨"ambition_trigger", "", "", ""⟩] := by
  have h := c5_notify_and_command true {} "[NOTIFY] Trigger morning ambitions"
    (by decide) (by decide) (by decide) (by decide) (by decide) (by decide) (by decide)
    (by decide) (by decide) (by decide) (by decide) (by decide)
  refine ⟨?_, ?_⟩
  · rw [h.1]; decide
  · rw [h.2]; decide

/-! ## C4: notification rate limiting -/

theorem runSends_head (s : ℚ) (ts : List ℚ) :
    ∀ u, (runSends s ts).head? = some u → TELEGRAM_MIN_INTERVAL ≤ u - s := by
  induction ts generalizing s with
  | nil => intro u h; simp [runSends] at h
  | cons t ts ih =>
      intro u h
      by_cases hc : t - s < TELEGRAM_MIN_INTERVAL
      · rw [runSends] at h
        simp only [sendTelegram, Bool.not_true, Bool.false_eq_true, if_false, if_pos hc] at h
        exact ih s u h
      · rw [runSends] at h
        simp only [sendTelegram, Bool.not_true, Bool.false_eq_true, if_false, if_neg hc,
          if_true, List.head?_cons, Option.some.injEq] at h
        subst h
        exact not_lt.mp hc

theorem runSends_chain (s : ℚ) (ts : List ℚ) :
    List.Chain' (fun a b => TELEGRAM_MIN_INTERVAL ≤ b - a) (runSends s ts) := by
  induction ts generalizing s with
  | nil => simp [runSends]
  | cons t ts ih =>
      by_cases hc : t - s < TELEGRAM_MIN_INTERVAL
      · rw [runSends]
        simpa only [sendTelegram, Bool.not_true, Bool.false_eq_true, if_false, if_pos hc]
          using ih s
      · rw [runSends]
        simp only [sendTelegram, Bool.not_true, Bool.false_eq_true, if_false, if_neg hc,
          if_true]
        rw [List.chain'_cons']
        exact ⟨fun y hy => runSends_head t ts y hy, ih t⟩

/-- Claim C4: with Telegram configured, an ambient notification less
than `_TELEGRAM_MIN_INTERVAL` after a delivered one is dropped; a third
attempted once the interval has elapsed (since the last delivered send)
is delivered; consecutive delivered ambient notifications are always at
least the interval apart; and direct replies (`send_telegram_reply`)
neither consult nor update the rate-limiter state, so they always go
out when Telegram is configured. -/
theorem c4_rate_limiter (st t1 t2 t3 : ℚ)
    (h1 : TELEGRAM_MIN_INTERVAL ≤ t1 - st)
    (h2 : t2 - t1 < TELEGRAM_MIN_INTERVAL)
    (h3 : TELEGRAM_MIN_INTERVAL ≤ t3 - t1) :
    runSends st [t1, t2] = [t1] ∧
    runSends st [t1, t2, t3] = [t1, t3] ∧
    (∀ (s : ℚ) (ts : List ℚ),
      List.Chain' (fun a b => TELEGRAM_MIN_INTERVAL ≤ b - a) (runSends s ts)) ∧
    (∀ (s : ℚ) (avail : Bool), sendTelegramReply avail s = (s, avail)) := by
  have hn1 : ¬ t1 - st < TELEGRAM_MIN_INTERVAL := not_lt.mpr h1
  have hn3 : ¬ t3 - t1 < TELEGRAM_MIN_INTERVAL := not_lt.mpr h3
  refine ⟨?_, ?_, runSends_chain, fun s avail => rfl⟩
  · simp [runSends, sendTelegram, hn1, h2]
  · simp [runSends, sendTelegram, hn1, h2, hn3]

/-- Witness for C4 at concrete times 100, 110, 140 from initial
rate-limiter state 0: the second send is dropped, the third delivered. -/
theorem c4_rate_limiter_witness :
    runSends 0 [100, 110, 140] = [100, 140] :=
  (c4_rate_limiter 0 100 110 140 (by norm_num [TELEGRAM_MIN_INTERVAL])
    (by norm_num [TELEGRAM_MIN_INTERVAL]) (by norm_num [TELEGRAM_MIN_INTERVAL])).2.1

/-! ## C7: long-poll offset tracking -/

theorem foldl_overwrite (f : TgUpdate → Int) (l : List TgUpdate) :
    ∀ init : Int, l.foldl (fun _ u => f u) init = (l.map f).getLastD init := by
  induction l with
  | nil => intro init; rfl
  | cons a l ih =>
      intro init
      rw [List.foldl_cons, ih, List.map_cons, List.getLastD_cons]

theorem le_getLastD_of_chain (l : List Int) :
    ∀ d : Int, List.Chain' (· ≤ ·) l → ∀ x ∈ l, x ≤ l.getLastD d := by
  induction l with
  | nil => simp
  | cons a l ih =>
      intro d hc x hx
      rw [List.getLastD_cons]
      rcases List.mem_cons.mp hx with h | h
      · subst h
        cases l with
        | nil => simp
        | cons b l2 =>
            have hab : x ≤ b := (List.chain'_cons.mp hc).1
            have hb := ih x (List.chain'_cons.mp hc).2 b (by simp)
            exact le_trans hab hb
      · exact ih a hc.tail x h

/-- Claim C7, counterexample to the claim as stated: the poller stores
the identifier of the last update in each batch, not the highest.  For
a batch whose updates carry `update_id` 10 then 5, an update with
`update_id: 10` was received, yet the next poll uses offset 6, not 11 —
so updates 6..10 would be requested again. -/
theorem c7_counterexample :
    processUpdates 0 [⟨10⟩, ⟨5⟩] = 5 ∧
    nextPollOffset (processUpdates 0 [⟨10⟩, ⟨5⟩]) = 6 := by
  decide

/-- Claim C7 (amended): the poller tracks the identifier of the most
recently received update — the last of each batch — and requests
`offset = last + 1`.  When a batch's identifiers are nondecreasing (as
the Telegram API delivers them), the stored identifier is the highest
one processed; in particular, after a batch ending with `update_id: 10`
the next poll request uses offset 11. -/
theorem c7_offset_tracking :
    (∀ (last : Int) (us : List TgUpdate),
        processUpdates last us = (us.map TgUpdate.update_id).getLastD last) ∧
    (∀ (last : Int) (us : List TgUpdate),
        List.Chain' (· ≤ ·) (us.map TgUpdate.update_id) →
        ∀ u ∈ us, u.update_id ≤ processUpdates last us) ∧
    nextPollOffset (processUpdates 0 [⟨10⟩]) = 11 := by
  refine ⟨fun last us => foldl_overwrite _ us last, ?_, by decide⟩
  intro last us hc u hu
  unfold processUpdates
  rw [foldl_overwrite _ us last]
  exact le_getLastD_of_chain _ last hc u.update_id (List.mem_map_of_mem _ hu)

/-- Witness for C7: in the nondecreasing batch `[10, 11]`, the stored
identifier bounds every received identifier. -/
theorem c7_offset_tracking_witness :
    (TgUpdate.mk 10).update_id ≤ processUpdates 0 [⟨10⟩, ⟨11⟩] :=
  c7_offset_tracking.2.1 0 [⟨10⟩, ⟨11⟩]
    (by simp only [List.map_cons, List.map_nil]
        exact List.chain'_cons.mpr ⟨by norm_num, List.chain'_singleton _⟩)
    ⟨10⟩ (by decide)

/-! ## Helper lemmas about the agent loop -/

theorem agentLoopAux_always_tool (service : List ChatMsg → ApiResp)
    (runTool : String → ToolInput → Except ToolExc String)
    (h : ∀ ms, (service ms).stopReason = "tool_use") :
    ∀ (n : Nat) (msgs hist : List ChatMsg),
      agentLoopAux service runTool n msgs hist = (MAX_ITER_MESSAGE, n, hist) := by
  intro n
  induction n with
  | zero => intro msgs hist; rfl
  | succ n ih =>
      intro msgs hist
      rw [agentLoopAux]
      simp only [h msgs, ne_eq, not_true_eq_false, if_false, ih]

theorem agentLoopAux_calls_le (service : List ChatMsg → ApiResp)
    (runTool : String → ToolInput → Except ToolExc String) :
    ∀ (n : Nat) (msgs hist : List ChatMsg),
      (agentLoopAux service runTool n msgs hist).2.1 ≤ n := by
  intro n
  induction n with
  | zero => intro msgs hist; exact le_refl 0
  | succ n ih =>
      intro msgs hist
      rw [agentLoopAux]
      by_cases hs : (service msgs).stopReason ≠ "tool_use"
      · simp only [if_pos hs]
        omega
      · simp only [if_neg hs]
        have := ih (msgs ++
          [⟨"assistant", .blocks (service msgs).content⟩,
           ⟨"user", .toolResults (toolResultsFor runTool (service msgs).content)⟩]) hist
        omega

theorem agentLoopAux_calls_pos (service : List ChatMsg → ApiResp)
    (runTool : String → ToolInput → Except ToolExc String)
    (n : Nat) (msgs hist : List ChatMsg) :
    1 ≤ (agentLoopAux service runTool (n + 1) msgs hist).2.1 := by
  rw [agentLoopAux]
  by_cases hs : (service msgs).stopReason ≠ "tool_use"
  · simp only [if_pos hs]
    omega
  · simp only [if_neg hs]
    omega

theorem pushHistory_length_le (h : List ChatMsg) (m : ChatMsg)
    (hl : h.length ≤ MAX_HISTORY) : (pushHistory h m).length ≤ MAX_HISTORY := by
  unfold pushHistory
  by_cases hc : (h ++ [m]).length > MAX_HISTORY
  · rw [if_pos hc]
    simp only [List.length_drop, List.length_append, List.length_singleton]
    omega
  · rw [if_neg hc]
    exact not_lt.mp hc

theorem pushHistory_evict (h : List ChatMsg) (m : ChatMsg)
    (hl : h.length = MAX_HISTORY) : pushHistory h m = h.drop 1 ++ [m] := by
  unfold pushHistory
  rw [if_pos, List.drop_append_of_le_length (by rw [hl]; decide)]
  simp only [List.length_append, List.length_singleton]
  omega

theorem agentLoopAux_hist_le (service : List ChatMsg → ApiResp)
    (runTool : String → ToolInput → Except ToolExc String) :
    ∀ (n : Nat) (msgs hist : List ChatMsg), hist.length ≤ MAX_HISTORY →
      (agentLoopAux service runTool n msgs hist).2.2.length ≤ MAX_HISTORY := by
  intro n
  induction n with
  | zero => intro msgs hist hl; exact hl
  | succ n ih =>
      intro msgs hist hl
      rw [agentLoopAux]
      by_cases hs : (service msgs).stopReason ≠ "tool_use"
      · simp only [if_pos hs]
        by_cases hr : extractReply (service msgs).content ≠ ""
        · simp only [if_pos hr]
          exact pushHistory_length_le _ _ hl
        · simp only [if_neg hr]
          exact hl
      · simp only [if_neg hs]
        exact ih _ hist hl

/-! ## C2: the agent loop is bounded -/

/-- Claim C2: the `call_claude` loop always terminates within the
configured iteration bound — the loop is parameterized by the bound and
makes at most `bound` completion-service calls for any service — and
with a completion service that signals `tool_use` on every iteration it
makes exactly `bound` calls and returns the fixed advisory
`MAX_ITER_MESSAGE` ("Try a simpler request"); `call_claude` then
returns that fixed message rather than `None`/silence.  The shipped
bound is the named constant `_MAX_TOOL_ITERATIONS = 25`. -/
theorem c2_agent_loop_bounded (bound : Nat) (service : List ChatMsg → ApiResp)
    (runTool : String → ToolInput → Except ToolExc String)
    (h : ∀ ms, (service ms).stopReason = "tool_use") :
    (∀ msgs hist : List ChatMsg,
        agentLoopAux service runTool bound msgs hist = (MAX_ITER_MESSAGE, bound, hist)) ∧
    (∀ (service2 : List ChatMsg → ApiResp) (msgs hist : List ChatMsg),
        (agentLoopAux service2 runTool bound msgs hist).2.1 ≤ bound) ∧
    MAX_TOOL_ITERATIONS = 25 ∧
    MAX_ITER_MESSAGE = "(Reached max tool iterations. Try a simpler request.)" ∧
    (∀ (hist : List ChatMsg) (u rem : String),
        (callClaude true service runTool hist u none rem).1 = some MAX_ITER_MESSAGE) := by
  refine ⟨agentLoopAux_always_tool service runTool h bound,
    fun service2 msgs hist => agentLoopAux_calls_le service2 runTool bound msgs hist,
    rfl, rfl, ?_⟩
  intro hist u rem
  unfold callClaude
  simp only [Bool.not_true, Bool.false_eq_true, if_false, Option.isSome_none,
    agentLoopAux_always_tool service runTool h]

/-- Witness for C2: a stub service that always answers `tool_use`
exhausts a bound of 2 in exactly 2 calls and yields the advisory. -/
theorem c2_agent_loop_bounded_witness :
    agentLoopAux (fun _ => ⟨[], "tool_use"⟩) (fun _ _ => Except.ok "y") 2 [] []
      = (MAX_ITER_MESSAGE, 2, []) :=
  (c2_agent_loop_bounded 2 (fun _ => ⟨[], "tool_use"⟩) (fun _ _ => Except.ok "y")
    (fun _ => rfl)).1 [] []

/-! ## C3: tool errors are contained -/

/-- Claim C3: when a known tool's body raises (`runTool` returns an
exception), `execute_tool` returns the textual error result built by its
`except` clauses instead of propagating — it is a total function into
`String` — the error text is what gets appended as the `tool_result`
content, and the agent loop proceeds to a subsequent iteration (at
least a second completion-service call is made) rather than aborting. -/
theorem c3_tool_error_contained (runTool : String → ToolInput → Except ToolExc String)
    (name : String) (input : ToolInput) (e : ToolExc)
    (hmem : name ∈ knownTools) (herr : runTool name input = .error e) :
    executeTool runTool name input = excMessage e ∧
    (∀ id : String,
        toolResultsFor runTool [{ type := "tool_use", name := name, input := input, id := id }]
          = [⟨id, excMessage e⟩]) ∧
    (∀ (service : List ChatMsg → ApiResp) (n : Nat) (msgs hist : List ChatMsg),
        (service msgs).stopReason = "tool_use" →
        2 ≤ (agentLoopAux service runTool (n + 2) msgs hist).2.1) := by
  have hexec : executeTool runTool name input = excMessage e := by
    unfold executeTool
    rw [if_pos hmem, herr]
  refine ⟨hexec, ?_, ?_⟩
  · intro id
    simp [toolResultsFor, hexec]
  · intro service n msgs hist hs
    rw [agentLoopAux]
    simp only [hs, ne_eq, not_true_eq_false, if_false]
    have := agentLoopAux_calls_pos service runTool n (msgs ++
      [⟨"assistant", .blocks (service msgs).content⟩,
       ⟨"user", .toolResults (toolResultsFor runTool (service msgs).content)⟩]) hist
    omega

/-- Witness for C3: a tool body that raises `Exception("boom")` yields
the textual result `Error: boom`. -/
theorem c3_tool_error_contained_witness :
    executeTool (fun _ _ => Except.error (ToolExc.exc "boom")) "run_python" "" = "Error: boom" := by
  have h := c3_tool_error_contained (fun _ _ => Except.error (ToolExc.exc "boom"))
    "run_python" "" (ToolExc.exc "boom") (by decide) rfl
  rw [h.1]
  decide

/-! ## C9: bounded conversation history with oldest-first eviction -/

/-- Claim C9: across every `call_claude` invocation — whether it appends
only the user message, only to return `None`, or also the assistant
reply — the conversation history never grows beyond `_MAX_HISTORY`, and
each append to a history already at the bound removes exactly the
oldest (first) entry. -/
theorem c9_history_bounded (avail : Bool) (service : List ChatMsg → ApiResp)
    (runTool : String → ToolInput → Except ToolExc String)
    (hist : List ChatMsg) (u : String) (img : Option (String × String)) (rem : String)
    (hlen : hist.length ≤ MAX_HISTORY) :
    (callClaude avail service runTool hist u img rem).2.length ≤ MAX_HISTORY ∧
    (∀ (h : List ChatMsg) (m : ChatMsg), h.length = MAX_HISTORY →
        pushHistory h m = h.drop 1 ++ [m]) := by
  refine ⟨?_, fun h m hm => pushHistory_evict h m hm⟩
  unfold callClaude
  by_cases ha : avail
  · simp only [ha, Bool.not_true, Bool.false_eq_true, if_false]
    exact agentLoopAux_hist_le service runTool MAX_TOOL_ITERATIONS _ _
      (pushHistory_length_le hist _ hlen)
  · simp only [Bool.not_eq_true] at ha
    simp only [ha, Bool.not_false, if_true]
    exact hlen

/-- Witness for C9 at a concrete single-turn exchange starting from an
empty history. -/
theorem c9_history_bounded_witness :
    (callClaude true (fun _ => ⟨[⟨"text", "hello", "", "", ""⟩], "end_turn"⟩)
        (fun _ _ => Except.ok "y") [] "hi" none "reminder").2.length ≤ MAX_HISTORY :=
  (c9_history_bounded true (fun _ => ⟨[⟨"text", "hello", "", "", ""⟩], "end_turn"⟩)
    (fun _ _ => Except.ok "y") [] "hi" none "reminder" (by decide)).1

/-! ## C6 and C10: the mailbox poller -/

theorem string_append_ne_empty (s t : String) (h : s.data ≠ []) : s ++ t ≠ "" := by
  intro hc
  have hd : (s ++ t).data = [] := by rw [hc]
  rw [String.data_append] at hd
  exact h (List.append_eq_nil.mp hd).1

/-- Claim C6: for every well-formed mailbox request file, the handler
writes exactly one paired response file — `resp_<id>.json`, with
`in_reply_to` equal to the request id — strictly before deleting the
request file (deletion is the final event); and on the spec's example
`{"id":"42","to":"telegram","message":"hi"}` the exact event sequence
is: send `hi` to Telegram, write `resp_42.json` with
`in_reply_to = "42"` and message `Sent to Telegram: hi`, then delete
the request file. -/
theorem c6_mailbox_response_before_delete :
    (∀ (anth : Bool) (claude : String → Option String) (injErr : Option String)
        (ts stem : String) (m : MailboxMsg),
      ∃ (pre forward : List InboxEvent) (resp : MailboxResponse),
        processInboxFile anth claude injErr ts stem (some m)
          = pre ++ [.writeResponse ("resp_" ++ m.id.getD stem ++ ".json") resp]
              ++ forward ++ [.deleteRequest] ∧
        resp.in_reply_to = m.id.getD stem) ∧
    (∀ (anth : Bool) (claude : String → Option String) (injErr : Option String)
        (ts : String),
      processInboxFile anth claude injErr ts "req42"
          (some { id := some "42", toTarget := some "telegram", message := some "hi" })
        = [.sendReplyEv "hi",
           .writeResponse "resp_42.json" ⟨"42", "42", "telegram", "Sent to Telegram: hi", ts⟩,
           .deleteRequest]) := by
  constructor
  · intro anth claude injErr ts stem m
    exact ⟨_, _, _, rfl, rfl⟩
  · intro anth claude injErr ts
    rfl

/-- Claim C10: a syntactically valid mailbox file whose `to` field is
none of the three recognized targets still gets a paired response file
— whose message names the unknown target and lists the valid ones —
written before the request file is deleted. -/
theorem c10_unknown_target (anth : Bool) (claude : String → Option String)
    (injErr : Option String) (ts stem : String) (m : MailboxMsg) (t : String)
    (hto : m.toTarget = some t)
    (h1 : t ≠ "claude") (h2 : t ≠ "genesis") (h3 : t ≠ "telegram") :
    processInboxFile anth claude injErr ts stem (some m)
      = [.writeResponse ("resp_" ++ m.id.getD stem ++ ".json")
          ⟨m.id.getD stem, m.id.getD stem, t,
           "Unknown target " ++ sq t ++ ". Use " ++ sq "claude" ++ ", " ++ sq "genesis"
             ++ ", or " ++ sq "telegram" ++ ".", ts⟩,
         .deleteRequest] := by
  have hb1 : (t == "claude") = false := beq_eq_false_iff_ne.mpr h1
  have hb2 : (t == "genesis") = false := beq_eq_false_iff_ne.mpr h2
  have hb3 : (t == "telegram") = false := beq_eq_false_iff_ne.mpr h3
  have hne : ("Unknown target " ++ sq t ++ ". Use " ++ sq "claude" ++ ", " ++ sq "genesis"
      ++ ", or " ++ sq "telegram" ++ "." == "") = false := by
    refine beq_eq_false_iff_ne.mpr ?_
    refine string_append_ne_empty _ _ ?_
    intro hd
    have : ("Unknown target " ++ sq t ++ ". Use " ++ sq "claude" ++ ", " ++ sq "genesis"
        ++ ", or " ++ sq "telegram").data = [] := hd
    rw [String.data_append, String.data_append, String.data_append, String.data_append,
      String.data_append, String.data_append, String.data_append] at this
    have h0 : ("Unknown target " : String).data = [] :=
      (List.append_eq_nil.mp ((List.append_eq_nil.mp ((List.append_eq_nil.mp
        ((List.append_eq_nil.mp ((List.append_eq_nil.mp ((List.append_eq_nil.mp
          ((List.append_eq_nil.mp this).1)).1)).1)).1)).1)).1)).1
    exact absurd h0 (by decide)
  unfold processInboxFile
  simp only [hto, Option.getD_some, hb1, hb2, hb3, Bool.false_and, Bool.false_eq_true,
    if_false, hne, List.nil_append, List.append_nil]
  rfl

/-- Witness for C10: target `robot` yields the unknown-target response
and then deletion. -/
theorem c10_unknown_target_witness :
    processInboxFile true (fun _ => none) none "2026-01-01T00:00:00" "req7"
        (some { id := some "7", toTarget := some "robot", message := some "hi" })
      = [.writeResponse ("resp_" ++ (some "7").getD "req7" ++ ".json")
          ⟨(some "7").getD "req7", (some "7").getD "req7", "robot",
           "Unknown target " ++ sq "robot" ++ ". Use " ++ sq "claude" ++ ", " ++ sq "genesis"
             ++ ", or " ++ sq "telegram" ++ ".", "2026-01-01T00:00:00"⟩,
         .deleteRequest] :=
  c10_unknown_target true (fun _ => none) none "2026-01-01T00:00:00" "req7"
    { id := some "7", toTarget := some "robot", message := some "hi" } "robot"
    rfl (by decide) (by decide) (by decide)

end GenesisBridge
